import Mathlib

/-!
Verification of the OllProx caching, authenticating reverse proxy
(`src/ollprox/main.py`) against its design specification.

The Python source is shallowly embedded below: pure helpers become Lean
functions, the mutable `API_Key_Authenticator` object becomes explicit
state passing over an `AuthState` structure, and the `call_model`
request handler becomes a function from an explicit environment
(cache-backend behaviour, upstream behaviour) to an outcome record.
Machine integers do not occur in the source (Python integers are
unbounded); 32-bit arithmetic only occurs inside the hash primitives,
where it is modelled as `Nat` with explicit `% 2^32`.
-/

set_option maxRecDepth 100000

namespace OllProx

/-! ### 32-bit word arithmetic (for the hash primitives) -/

def M32 : Nat := 4294967296

def add32 (a b : Nat) : Nat := (a + b) % M32

def rotr32 (n x : Nat) : Nat := ((x >>> n) ||| (x <<< (32 - n))) % M32

def rotl32 (n x : Nat) : Nat := ((x <<< n) ||| (x >>> (32 - n))) % M32

def bnot32 (x : Nat) : Nat := 4294967295 ^^^ x

/-! ### Bytes and hex rendering -/

/-- UTF-8 encoding of one character (Python `str.encode()` is UTF-8). -/
def utf8Char (c : Char) : List Nat :=
  let n := c.toNat
  if n < 128 then [n]
  else if n < 2048 then [192 + n / 64, 128 + n % 64]
  else if n < 65536 then [224 + n / 4096, 128 + (n / 64) % 64, 128 + n % 64]
  else [240 + n / 262144, 128 + (n / 4096) % 64, 128 + (n / 64) % 64, 128 + n % 64]

/-- UTF-8 bytes of a string, as Python `s.encode()` produces. -/
def strBytes (s : String) : List Nat := (s.data.map utf8Char).flatten

/-- `n` bytes of `v`, big-endian (most significant byte first). -/
def beBytes : Nat → Nat → List Nat
  | 0, _ => []
  | n + 1, v => beBytes n (v / 256) ++ [v % 256]

/-- `n` bytes of `v`, little-endian (least significant byte first). -/
def leBytes : Nat → Nat → List Nat
  | 0, _ => []
  | n + 1, v => v % 256 :: leBytes n (v / 256)

/-- Lowercase hex digit for a value `< 16`. -/
def hexChar (n : Nat) : Char := if n < 10 then Char.ofNat (48 + n) else Char.ofNat (87 + n)

/-- Exactly `n` lowercase hex characters of `v`, big-endian, zero padded. -/
def hexOfNat : Nat → Nat → List Char
  | 0, _ => []
  | n + 1, v => hexOfNat n (v / 16) ++ [hexChar (v % 16)]

/-- Group a byte list into 32-bit words, big-endian within each word. -/
def bytesToWordsBE : List Nat → List Nat
  | b0 :: b1 :: b2 :: b3 :: rest =>
      (((b0 * 256 + b1) * 256 + b2) * 256 + b3) :: bytesToWordsBE rest
  | _ => []

/-- Group a byte list into 32-bit words, little-endian within each word. -/
def bytesToWordsLE : List Nat → List Nat
  | b0 :: b1 :: b2 :: b3 :: rest =>
      (((b3 * 256 + b2) * 256 + b1) * 256 + b0) :: bytesToWordsLE rest
  | _ => []

/-- Split a word list into 16-word blocks (fuel-based structural
recursion; every step consumes at least one element, so the list's
length is enough fuel). -/
def chunks16Go : Nat → List Nat → List (List Nat)
  | 0, _ => []
  | _ + 1, [] => []
  | fuel + 1, w :: ws => (w :: ws).take 16 :: chunks16Go fuel (ws.drop 15)

def chunks16 (l : List Nat) : List (List Nat) := chunks16Go l.length l

/-- Merkle–Damgård padding shared by MD5 and SHA-256: append `0x80`,
then zero bytes until the length is 56 mod 64, then the 8-byte bit
length (`lenBytes` renders it big- or little-endian). -/
def padMessage (msg : List Nat) (lenBytes : Nat → List Nat) : List Nat :=
  msg ++ 128 :: (List.replicate ((119 - msg.length % 64) % 64) 0 ++ lenBytes (8 * msg.length))

/-! ### SHA-256 (`hashlib.sha256`) -/

structure Hash8 where
  a : Nat
  b : Nat
  c : Nat
  d : Nat
  e : Nat
  f : Nat
  g : Nat
  h : Nat

def ssig0 (x : Nat) : Nat := (rotr32 7 x) ^^^ (rotr32 18 x) ^^^ (x >>> 3)

def ssig1 (x : Nat) : Nat := (rotr32 17 x) ^^^ (rotr32 19 x) ^^^ (x >>> 10)

def bsig0 (x : Nat) : Nat := (rotr32 2 x) ^^^ (rotr32 13 x) ^^^ (rotr32 22 x)

def bsig1 (x : Nat) : Nat := (rotr32 6 x) ^^^ (rotr32 11 x) ^^^ (rotr32 25 x)

def chf (x y z : Nat) : Nat := (x &&& y) ^^^ (bnot32 x &&& z)

/-- The SHA-256 majority function, in its `(x∧y) ⊕ ((x⊕y)∧z)` form. -/
def majf (x y z : Nat) : Nat := (x &&& y) ^^^ ((x ^^^ y) &&& z)

def sha256K : List Nat :=
  [1116352408, 1899447441, 3049323471, 3921009573, 961987163,
   1508970993, 2453635748, 2870763221, 3624381080, 310598401,
   607225278, 1426881987, 1925078388, 2162078206, 2614888103,
   3248222580, 3835390401, 4022224774, 264347078, 604807628,
   770255983, 1249150122, 1555081692, 1996064986, 2554220882,
   2821834349, 2952996808, 3210313671, 3336571891, 3584528711,
   113926993, 338241895, 666307205, 773529912, 1294757372,
   1396182291, 1695183700, 1986661051, 2177026350, 2456956037,
   2730485921, 2820302411, 3259730800, 3345764771, 3516065817,
   3600352804, 4094571909, 275423344, 430227734, 506948616,
   659060556, 883997877, 958139571, 1322822218, 1537002063,
   1747873779, 1955562222, 2024104815, 2227730452, 2361852424,
   2428436474, 2756734187, 3204031479, 3329325298]

/-- Extend a 16-word block by `n` message-schedule words. -/
def extendW : List Nat → Nat → List Nat
  | ws, 0 => ws
  | ws, n + 1 =>
      let i := ws.length
      let t := add32 (add32 (ssig1 (ws.getD (i - 2) 0)) (ws.getD (i - 7) 0))
                     (add32 (ssig0 (ws.getD (i - 15) 0)) (ws.getD (i - 16) 0))
      extendW (ws ++ [t]) n

def sha256Round (s : Hash8) (kw : Nat × Nat) : Hash8 :=
  let t1 := add32 s.h (add32 (bsig1 s.e) (add32 (chf s.e s.f s.g) (add32 kw.1 kw.2)))
  let t2 := add32 (bsig0 s.a) (majf s.a s.b s.c)
  ⟨add32 t1 t2, s.a, s.b, s.c, add32 s.d t1, s.e, s.f, s.g⟩

def sha256Block (hv : Hash8) (block : List Nat) : Hash8 :=
  let w := extendW block 48
  let s := (sha256K.zip w).foldl sha256Round hv
  ⟨add32 hv.a s.a, add32 hv.b s.b, add32 hv.c s.c, add32 hv.d s.d,
   add32 hv.e s.e, add32 hv.f s.f, add32 hv.g s.g, add32 hv.h s.h⟩

def sha256H0 : Hash8 :=
  ⟨1779033703, 3144134277, 1013904242, 2773480762,
   1359893119, 2600822924, 528734635, 1541459225⟩

def sha256Words (msg : List Nat) : Hash8 :=
  (chunks16 (bytesToWordsBE (padMessage msg (beBytes 8)))).foldl sha256Block sha256H0

/-- The 256-bit digest as one natural number (big-endian word order). -/
def sha256Nat (msg : List Nat) : Nat :=
  let s := sha256Words msg
  ((((((s.a * M32 + s.b) * M32 + s.c) * M32 + s.d) * M32 + s.e) * M32 + s.f) * M32 + s.g) * M32 + s.h

/-- `hashlib.sha256(s.encode()).hexdigest()`: 64 lowercase hex characters. -/
def sha256_hexdigest (s : String) : String := ⟨hexOfNat 64 (sha256Nat (strBytes s))⟩

/-! ### MD5 (`hashlib.md5`) -/

structure Hash4 where
  a : Nat
  b : Nat
  c : Nat
  d : Nat

def md5K : List Nat :=
  [3614090360, 3905402710, 606105819, 3250441966, 4118548399,
   1200080426, 2821735955, 4249261313, 1770035416, 2336552879,
   4294925233, 2304563134, 1804603682, 4254626195, 2792965006,
   1236535329, 4129170786, 3225465664, 643717713, 3921069994,
   3593408605, 38016083, 3634488961, 3889429448, 568446438,
   3275163606, 4107603335, 1163531501, 2850285829, 4243563512,
   1735328473, 2368359562, 4294588738, 2272392833, 1839030562,
   4259657740, 2763975236, 1272893353, 4139469664, 3200236656,
   681279174, 3936430074, 3572445317, 76029189, 3654602809,
   3873151461, 530742520, 3299628645, 4096336452, 1126891415,
   2878612391, 4237533241, 1700485571, 2399980690, 4293915773,
   2240044497, 1873313359, 4264355552, 2734768916, 1309151649,
   4149444226, 3174756917, 718787259, 3951481745]

def md5S : List Nat :=
  [7, 12, 17, 22, 7, 12, 17, 22, 7, 12, 17, 22, 7, 12, 17, 22,
   5, 9, 14, 20, 5, 9, 14, 20, 5, 9, 14, 20, 5, 9, 14, 20,
   4, 11, 16, 23, 4, 11, 16, 23, 4, 11, 16, 23, 4, 11, 16, 23,
   6, 10, 15, 21, 6, 10, 15, 21, 6, 10, 15, 21, 6, 10, 15, 21]

def md5F (i b c d : Nat) : Nat :=
  if i < 16 then (b &&& c) ||| (bnot32 b &&& d)
  else if i < 32 then (d &&& b) ||| (bnot32 d &&& c)
  else if i < 48 then b ^^^ c ^^^ d
  else c ^^^ (b ||| bnot32 d)

def md5G (i : Nat) : Nat :=
  if i < 16 then i
  else if i < 32 then (5 * i + 1) % 16
  else if i < 48 then (3 * i + 5) % 16
  else (7 * i) % 16

def md5Step (m : List Nat) (st : Hash4) (i : Nat) : Hash4 :=
  let f := add32 (md5F i st.b st.c st.d)
                 (add32 st.a (add32 (md5K.getD i 0) (m.getD (md5G i) 0)))
  ⟨st.d, add32 st.b (rotl32 (md5S.getD i 0) f), st.b, st.c⟩

def md5Block (hv : Hash4) (m : List Nat) : Hash4 :=
  let s := (List.range 64).foldl (md5Step m) hv
  ⟨add32 hv.a s.a, add32 hv.b s.b, add32 hv.c s.c, add32 hv.d s.d⟩

def md5Init : Hash4 := ⟨1732584193, 4023233417, 2562383102, 271733878⟩

def md5Words (msg : List Nat) : Hash4 :=
  (chunks16 (bytesToWordsLE (padMessage msg (leBytes 8)))).foldl md5Block md5Init

/-- The 128-bit digest as one natural number, bytes in output order
(each state word rendered little-endian, as MD5 specifies). -/
def md5Nat (msg : List Nat) : Nat :=
  let st := md5Words msg
  (([st.a, st.b, st.c, st.d].map (leBytes 4)).flatten).foldl (fun acc b => acc * 256 + b) 0

/-- `hashlib.md5(s.encode()).hexdigest()`: 32 lowercase hex characters. -/
def md5_hexdigest (s : String) : String := ⟨hexOfNat 32 (md5Nat (strBytes s))⟩

/-! ### JSON values and `json.dumps(..., sort_keys=True)`

`call_model` receives its body as a Python `dict` parsed from JSON.
JSON values are modelled by `JVal` (numbers restricted to integers;
no claim depends on float formatting).  Python `dict`s cannot hold
duplicate keys, so object field lists with `Nodup` keys are the
faithful image of source payloads. -/

inductive JVal where
  | jnull : JVal
  | jbool : Bool → JVal
  | jnum : Int → JVal
  | jstr : String → JVal
  | jarr : List JVal → JVal
  | jobj : List (String × JVal) → JVal

/-- One character of `json.dumps` string output (`ensure_ascii=True`:
printable ASCII kept, everything else `\uXXXX`-escaped, with surrogate
pairs above the BMP). -/
def jsonEscapeChar (c : Char) : List Char :=
  if c = '"' then ['\\', '"']
  else if c = '\\' then ['\\', '\\']
  else if c = '\n' then ['\\', 'n']
  else if c = '\t' then ['\\', 't']
  else if c = '\r' then ['\\', 'r']
  else if c.toNat = 8 then ['\\', 'b']
  else if c.toNat = 12 then ['\\', 'f']
  else if 32 ≤ c.toNat ∧ c.toNat ≤ 126 then [c]
  else if c.toNat < 65536 then '\\' :: 'u' :: hexOfNat 4 c.toNat
  else
    ('\\' :: 'u' :: hexOfNat 4 (55296 + (c.toNat - 65536) / 1024)) ++
    ('\\' :: 'u' :: hexOfNat 4 (56320 + (c.toNat - 65536) % 1024))

/-- A JSON string literal, double-quoted and escaped. -/
def jsonStr (s : String) : String := ⟨'"' :: (s.data.map jsonEscapeChar).flatten ++ ['"']⟩

/-- Python sorts `dict` items by key (code-point lexicographic order,
which is also Lean's `String` order). -/
def keyLe (a b : String × JVal) : Bool := a.1 ≤ b.1

/-- `json.dumps(v, sort_keys=True)` with the default separators
`", "` and `": "`. -/
def dumpsVal : JVal → String
  | .jnull => "null"
  | .jbool true => "true"
  | .jbool false => "false"
  | .jnum n => toString n
  | .jstr s => jsonStr s
  | .jarr xs =>
      "[" ++ String.intercalate ", " (xs.attach.map (fun x => dumpsVal x.1)) ++ "]"
  | .jobj fs =>
      "\x7b" ++
        String.intercalate ", "
          ((fs.mergeSort keyLe).attach.map
            (fun kv => jsonStr kv.1.1 ++ ": " ++ dumpsVal kv.1.2)) ++
      "\x7d"
termination_by v => sizeOf v
decreasing_by
  · have h1 := List.sizeOf_lt_of_mem x.2
    simp only [JVal.jarr.sizeOf_spec]
    omega
  · have hmem : kv.1 ∈ fs := (List.mergeSort_perm fs keyLe).subset kv.2
    have h1 := List.sizeOf_lt_of_mem hmem
    have h2 : sizeOf kv.1.2 < sizeOf kv.1 := by
      cases kv.1 with
      | mk a b => simp only [Prod.mk.sizeOf_spec]; omega
    simp only [JVal.jobj.sizeOf_spec]
    omega

/-- `get_cache_key` from the source: `json.dumps(request, sort_keys=True)`
hashed with MD5, prefixed with the `ollama_cache:` namespace tag. -/
def get_cache_key (request : JVal) : String :=
  "ollama_cache:" ++ md5_hexdigest (dumpsVal request)

/-! ### The `API_Key_Authenticator` class

The Python object is embedded as explicit state passing over
`AuthState`.  External effects become parameters:

* `lines` — the lines successfully read from `/api_keys.txt`; a missing
  or unreadable file raises inside `get_keys_from_file`, is caught, and
  contributes no lines, so it is the `[]` instance (an exception after
  a prefix of lines keeps that prefix, which is also a `lines` value);
* `now` — the value of `time.time()`, modelled as an integer timestamp
  (the float is only compared and stored; consecutive `time.time()`
  calls inside one handler are modelled as the same instant);
* `choice` — the stream of `random.choice` draws; `random.seed` with
  the hostname makes this stream a deterministic function of the
  host's identity. -/

structure AuthState where
  API_KEY_SALT : String
  API_KEY_REFRESH_TIME : Int
  already_salted : Bool
  VALID_API_KEYS_SALTED : Finset String
  LAST_KEY_REFRESH : Int

/-- `hash_api_key`: SHA-256 of the presented key joined to the salt by
the fixed separator token. -/
def hash_api_key (salt key : String) : String :=
  sha256_hexdigest (key ++ "@separator@" ++ salt)

/-- ASCII whitespace, as Python's `str.strip()` removes (the source's
key files are ASCII; Python additionally strips rare Unicode spaces). -/
def isSpaceChar (c : Char) : Bool :=
  c = ' ' || c = '\t' || c = '\n' || c = '\r' || c.toNat = 11 || c.toNat = 12

/-- Python `line.strip()`. -/
def pyStrip (s : String) : String :=
  ⟨((s.data.dropWhile isSpaceChar).reverse.dropWhile isSpaceChar).reverse⟩

/-- The loop body of `get_keys_from_file`: strip each line, skip empty
ones, take pre-salted lines verbatim and hash raw ones. -/
def keysFromLines (already_salted : Bool) (salt : String) (lines : List String) : Finset String :=
  lines.foldl
    (fun acc line =>
      let l := pyStrip line
      if l = "" then acc
      else insert (if already_salted then l else hash_api_key salt l) acc)
    ∅

/-- `get_keys_from_file`: note that it stamps `LAST_KEY_REFRESH` at its
very first line, before and regardless of the read's outcome. -/
def get_keys_from_file (st : AuthState) (lines : List String) (now : Int) :
    AuthState × Finset String :=
  ({ st with LAST_KEY_REFRESH := now },
   keysFromLines st.already_salted st.API_KEY_SALT lines)

/-- The hex alphabet string `'0123456789abcdef'` used for the fallback
key. -/
def HEXDIGITS : List Char := "0123456789abcdef".data

/-- The generated fallback key:
`''.join(random.choice('0123456789abcdef') for _ in range(32))` after
`random.seed(socket.gethostname())`. -/
def generated_key (choice : Nat → Fin 16) : String :=
  ⟨(List.range 32).map (fun i => HEXDIGITS.getD (choice i).1 ' ')⟩

/-- `API_Key_Authenticator.__init__`.  Returns the constructed state
and the lines printed.  `salt` is `os.getenv("API_KEY_SALT")` or the
generated `"DEF" ++ token` default, `keyRefresh` is
`int(os.getenv("KEY_REFRESH", 10))`, `fileExists` is
`os.path.exists(API_KEY_FILE)`. -/
def authInit (salt : String) (keyRefresh : Int) (already_salted : Bool)
    (fileExists : Bool) (lines : List String) (choice : Nat → Fin 16) (now : Int) :
    AuthState × List String :=
  let st0 : AuthState :=
    { API_KEY_SALT := salt
      API_KEY_REFRESH_TIME := max keyRefresh 2
      already_salted := already_salted
      VALID_API_KEYS_SALTED := ∅
      LAST_KEY_REFRESH := now }
  let st1 :=
    if fileExists then
      let gk := get_keys_from_file st0 lines now
      { gk.1 with VALID_API_KEYS_SALTED := gk.2 }
    else st0
  if st1.VALID_API_KEYS_SALTED = ∅ then
    let k := generated_key choice
    ({ st1 with VALID_API_KEYS_SALTED := {k} },
     ["[IMPORTANT] No API key file provided. Generated random API key: " ++ k])
  else (st1, [])

/-- `verify_api_key`, line by line: hash the presented key; an empty
hash short-circuits to `false`; refresh when the interval has elapsed
or the hash is not trusted; a refresh replaces the trusted set only
when the freshly loaded set is non-empty; answer membership in the
resulting set. -/
def verify_api_key (st : AuthState) (lines : List String) (now : Int) (api_key : String) :
    Bool × AuthState :=
  let hashed_key := hash_api_key st.API_KEY_SALT api_key
  if hashed_key = "" then (false, st)
  else
    let st1 :=
      if now - st.LAST_KEY_REFRESH > st.API_KEY_REFRESH_TIME
          ∨ hashed_key ∉ st.VALID_API_KEYS_SALTED then
        let gk := get_keys_from_file st lines now
        if gk.2 ≠ ∅ then { gk.1 with VALID_API_KEYS_SALTED := gk.2 } else gk.1
      else st
    (decide (hashed_key ∈ st1.VALID_API_KEYS_SALTED), st1)

/-! ### The `call_model` request handler

External collaborators become an explicit environment:

* `connected` — whether the startup `redis.Redis(...).ping()`
  succeeded (`redis_client is not None`);
* `cacheGet` — the behaviour of `redis_client.get` on this request
  (redis stores `json.dumps(response_data)` and the handler returns
  `json.loads(cached_response)`; the round trip is the identity on
  JSON values, so the model stores the JSON value itself);
* `putFails` — whether `redis_client.setex` raises on this request;
* `upstream` — the outcome of `requests.post(OLLAMA_URL + "/api/generate", ...)`:
  a 2xx JSON body, a `requests.exceptions.RequestException` (connection
  failure, timeout, or the `raise_for_status` of a non-2xx reply), or
  any other exception. -/

inductive GetRes where
  | found : JVal → GetRes
  | nofind : GetRes
  | err : String → GetRes

inductive UpstreamRes where
  | ok : JVal → UpstreamRes
  | requestExc : String → UpstreamRes
  | otherExc : String → UpstreamRes

structure CallEnv where
  connected : Bool
  cacheGet : String → GetRes
  putFails : Bool
  upstream : UpstreamRes

inductive HResp where
  | success : JVal → HResp
  | httpError : Nat → String → HResp

/-- What one `POST /call_model` request did: the HTTP-level outcome,
the authenticator state afterwards, whether the upstream generate
endpoint was invoked, whether the cache was queried, and the `setex`
writes performed (key, ttl, value). -/
structure CallOutcome where
  resp : HResp
  st : AuthState
  upstreamCalled : Bool
  cacheQueried : Bool
  cacheWrites : List (String × Int × JVal)

/-- The `call_model` handler.  `apikey = none` models an absent header
(`Header(None)`); Python's `if not apikey` is also true for a present
but empty header value. -/
def call_model (st : AuthState) (lines : List String) (now : Int) (CACHE_TTL : Int)
    (env : CallEnv) (request : JVal) (apikey : Option String) : CallOutcome :=
  if apikey = none ∨ apikey = some "" then
    ⟨.httpError 401 "Missing APIKEY header", st, false, false, []⟩
  else
    let vr := verify_api_key st lines now (apikey.getD "")
    let st' := vr.2
    if vr.1 = false then
      ⟨.httpError 403 "Invalid API key", st', false, false, []⟩
    else
      let hit : Option JVal :=
        if env.connected then
          match env.cacheGet (get_cache_key request) with
          | .found v => some v
          | _ => none
        else none
      match hit with
      | some v => ⟨.success v, st', false, env.connected, []⟩
      | none =>
        match env.upstream with
        | .ok data =>
            let writes :=
              if env.connected ∧ env.putFails = false then
                [(get_cache_key request, CACHE_TTL, data)]
              else []
            ⟨.success data, st', true, env.connected, writes⟩
        | .requestExc e =>
            ⟨.httpError 502 ("Error communicating with ollama service: " ++ e),
             st', true, env.connected, []⟩
        | .otherExc e =>
            ⟨.httpError 500 ("Internal server error: " ++ e),
             st', true, env.connected, []⟩

/-! ### Spec-side notions used to state the claims -/

mutual

/-- Payloads that are field-wise equal regardless of field order,
recursively (the spec's equivalence for cache-key determinism).
`jobj` relates two objects when one's field list is a permutation of a
list that matches the other's field by field, with equal names and
recursively equivalent values; Python `dict`s cannot repeat keys, so
the key list is required to be duplicate-free. -/
inductive JEquiv : JVal → JVal → Prop where
  | jnull : JEquiv .jnull .jnull
  | jbool (b : Bool) : JEquiv (.jbool b) (.jbool b)
  | jnum (n : Int) : JEquiv (.jnum n) (.jnum n)
  | jstr (s : String) : JEquiv (.jstr s) (.jstr s)
  | jarr {xs ys : List JVal} : JEquivList xs ys → JEquiv (.jarr xs) (.jarr ys)
  | jobj {f1 fm f2 : List (String × JVal)} :
      f1.Perm fm → JEquivFields fm f2 → (f1.map Prod.fst).Nodup →
      JEquiv (.jobj f1) (.jobj f2)

inductive JEquivList : List JVal → List JVal → Prop where
  | nil : JEquivList [] []
  | cons {x y : JVal} {xs ys : List JVal} :
      JEquiv x y → JEquivList xs ys → JEquivList (x :: xs) (y :: ys)

inductive JEquivFields : List (String × JVal) → List (String × JVal) → Prop where
  | nil : JEquivFields [] []
  | cons {a b : String × JVal} {xs ys : List (String × JVal)} :
      a.1 = b.1 → JEquiv a.2 b.2 → JEquivFields xs ys →
      JEquivFields (a :: xs) (b :: ys)

end

/-- The serialized form of one object entry: its name and its value's
serialization.  `dumpsVal` on an object renders exactly these, sorted
by name. -/
def gEntry (kv : String × JVal) : String × String := (kv.1, dumpsVal kv.2)

/-- Rendering of a serialized entry with the `": "` separator. -/
def entryRender (kv : String × String) : String := jsonStr kv.1 ++ ": " ++ kv.2

/-- The response `call_model` produces for a given upstream outcome
when the cache contributes nothing (the cache-miss behaviour). -/
def respOfUpstream : UpstreamRes → HResp
  | .ok b => .success b
  | .requestExc e => .httpError 502 ("Error communicating with ollama service: " ++ e)
  | .otherExc e => .httpError 500 ("Internal server error: " ++ e)

/-- The `setex` writes `call_model` performs on the cache-miss path. -/
def missWrites (env : CallEnv) (req : JVal) (ttl : Int) : List (String × Int × JVal) :=
  match env.upstream with
  | .ok data =>
      if env.connected ∧ env.putFails = false then [(get_cache_key req, ttl, data)] else []
  | _ => []

/-! ## Theorems -/

/-! ### Basic facts about the hash primitives and the fallback key -/

theorem hexOfNat_length (n v : Nat) : (hexOfNat n v).length = n := by
  induction n generalizing v with
  | zero => rfl
  | succ k ih => simp [hexOfNat, ih]

theorem sha256_hexdigest_length (s : String) : (sha256_hexdigest s).length = 64 := by
  simp only [sha256_hexdigest, String.length, hexOfNat_length]

theorem md5_hexdigest_length (s : String) : (md5_hexdigest s).length = 32 := by
  simp only [md5_hexdigest, String.length, hexOfNat_length]

theorem hash_api_key_length (salt key : String) : (hash_api_key salt key).length = 64 :=
  sha256_hexdigest_length _

theorem hash_api_key_ne_empty (salt key : String) : hash_api_key salt key ≠ "" := by
  intro h
  have h64 := hash_api_key_length salt key
  rw [h] at h64
  exact absurd h64 (by decide)

theorem generated_key_length (choice : Nat → Fin 16) : (generated_key choice).length = 32 := by
  simp [generated_key, String.length]

theorem generated_key_chars (choice : Nat → Fin 16) :
    ∀ c ∈ (generated_key choice).data, c ∈ HEXDIGITS := by
  intro c hc
  simp only [generated_key, List.mem_map, List.mem_range] at hc
  obtain ⟨i, _, rfl⟩ := hc
  have h16 : ((choice i) : Nat) < HEXDIGITS.length := (choice i).2
  rw [List.getD_eq_getElem _ _ h16]
  exact List.getElem_mem h16

theorem hash_ne_generated (salt key : String) (choice : Nat → Fin 16) :
    hash_api_key salt key ≠ generated_key choice := by
  intro h
  have h1 := hash_api_key_length salt key
  rw [h, generated_key_length] at h1
  exact absurd h1 (by decide)

/-! ### Characterizations of `authInit` and `verify_api_key` -/

/-- What `__init__` builds: the key set loaded from the file (or empty
when the file is missing), replaced by the singleton fallback key when
that set is empty. -/
theorem authInit_eq (salt : String) (kr : Int) (as fe : Bool) (lines : List String)
    (choice : Nat → Fin 16) (now : Int) :
    authInit salt kr as fe lines choice now =
      if (if fe then keysFromLines as salt lines else ∅) = ∅ then
        (⟨salt, max kr 2, as, {generated_key choice}, now⟩,
         ["[IMPORTANT] No API key file provided. Generated random API key: " ++
           generated_key choice])
      else
        (⟨salt, max kr 2, as, if fe then keysFromLines as salt lines else ∅, now⟩, []) := by
  cases fe
  · simp only [authInit, get_keys_from_file, Bool.false_eq_true, if_false, if_pos rfl]
  · simp only [authInit, get_keys_from_file, if_true]

/-- The authenticator state after `verify_api_key`, with the dead
`hashed_key = ""` branch eliminated (a SHA-256 hex digest is never
empty). -/
theorem verify_state_eq (st : AuthState) (lines : List String) (now : Int) (key : String) :
    (verify_api_key st lines now key).2 =
      if now - st.LAST_KEY_REFRESH > st.API_KEY_REFRESH_TIME
          ∨ hash_api_key st.API_KEY_SALT key ∉ st.VALID_API_KEYS_SALTED then
        (if keysFromLines st.already_salted st.API_KEY_SALT lines ≠ ∅ then
          ⟨st.API_KEY_SALT, st.API_KEY_REFRESH_TIME, st.already_salted,
           keysFromLines st.already_salted st.API_KEY_SALT lines, now⟩
        else
          ⟨st.API_KEY_SALT, st.API_KEY_REFRESH_TIME, st.already_salted,
           st.VALID_API_KEYS_SALTED, now⟩)
      else st := by
  simp only [verify_api_key, get_keys_from_file,
    if_neg (hash_api_key_ne_empty st.API_KEY_SALT key)]

/-- The Boolean `verify_api_key` returns: membership of the computed
salted hash in the (possibly refreshed) trusted set. -/
theorem verify_fst_eq (st : AuthState) (lines : List String) (now : Int) (key : String) :
    (verify_api_key st lines now key).1 =
      decide (hash_api_key st.API_KEY_SALT key
        ∈ (verify_api_key st lines now key).2.VALID_API_KEYS_SALTED) := by
  simp only [verify_api_key, get_keys_from_file,
    if_neg (hash_api_key_ne_empty st.API_KEY_SALT key)]

/-- Fields of the constructed authenticator state that do not depend on
the key source. -/
theorem authInit_fields (salt : String) (kr : Int) (as fe : Bool) (lines : List String)
    (choice : Nat → Fin 16) (now : Int) :
    (authInit salt kr as fe lines choice now).1.API_KEY_SALT = salt ∧
    (authInit salt kr as fe lines choice now).1.API_KEY_REFRESH_TIME = max kr 2 ∧
    (authInit salt kr as fe lines choice now).1.already_salted = as ∧
    (authInit salt kr as fe lines choice now).1.LAST_KEY_REFRESH = now := by
  rw [authInit_eq]
  split <;> split <;> exact ⟨rfl, rfl, rfl, rfl⟩

/-- When the key source yields nothing at construction, the trusted set
is the singleton fallback key and the generated-key banner is printed. -/
theorem authInit_valid_empty (salt : String) (kr : Int) (as fe : Bool) (lines : List String)
    (choice : Nat → Fin 16) (now : Int)
    (hempty : fe = false ∨ keysFromLines as salt lines = ∅) :
    (authInit salt kr as fe lines choice now).1.VALID_API_KEYS_SALTED
        = {generated_key choice} ∧
    (authInit salt kr as fe lines choice now).2 =
      ["[IMPORTANT] No API key file provided. Generated random API key: " ++
        generated_key choice] := by
  have hk : (if fe then keysFromLines as salt lines else ∅) = ∅ := by
    rcases hempty with h | h <;> simp [h]
  rw [authInit_eq, if_pos hk]
  exact ⟨rfl, rfl⟩

/-! ### The claims about the authenticator -/

/-- C10: for every configured key-refresh interval, the effective
refresh interval equals the configured value when it is at least 2 and
is clamped to exactly 2 below that. -/
theorem refresh_interval_clamped (salt : String) (kr : Int) (as fe : Bool)
    (lines : List String) (choice : Nat → Fin 16) (now : Int) :
    (2 ≤ kr → (authInit salt kr as fe lines choice now).1.API_KEY_REFRESH_TIME = kr) ∧
    (kr < 2 → (authInit salt kr as fe lines choice now).1.API_KEY_REFRESH_TIME = 2) := by
  have h := (authInit_fields salt kr as fe lines choice now).2.1
  constructor
  · intro h2
    rw [h]
    exact max_eq_left h2
  · intro h2
    rw [h]
    exact max_eq_right (le_of_lt h2)

theorem refresh_interval_clamped_witness :
    ((2 : Int) ≤ 7 ∧
      (authInit "s" 7 false false [] (fun _ => 0) 0).1.API_KEY_REFRESH_TIME = 7) ∧
    ((0 : Int) < 2 ∧
      (authInit "s" 0 false false [] (fun _ => 0) 0).1.API_KEY_REFRESH_TIME = 2) :=
  ⟨⟨by decide, (refresh_interval_clamped "s" 7 false false [] (fun _ => 0) 0).1 (by decide)⟩,
   ⟨by decide, (refresh_interval_clamped "s" 0 false false [] (fun _ => 0) 0).2 (by decide)⟩⟩

/-- C9: when the key source yields an empty set at construction, the
authenticator holds exactly one fallback key, a function only of the
`random.choice` stream that `random.seed(socket.gethostname())`
determines from the host's identity, 32 characters long, drawn from
the hex alphabet, and it prints the prominent banner naming that key. -/
theorem fallback_key_generation (salt : String) (kr : Int) (as fe : Bool)
    (lines : List String) (choice : Nat → Fin 16) (now : Int)
    (hempty : fe = false ∨ keysFromLines as salt lines = ∅) :
    (authInit salt kr as fe lines choice now).1.VALID_API_KEYS_SALTED
        = {generated_key choice} ∧
    (generated_key choice).length = 32 ∧
    (∀ c ∈ (generated_key choice).data, c ∈ HEXDIGITS) ∧
    (authInit salt kr as fe lines choice now).2 =
      ["[IMPORTANT] No API key file provided. Generated random API key: " ++
        generated_key choice] := by
  have h := authInit_valid_empty salt kr as fe lines choice now hempty
  exact ⟨h.1, generated_key_length choice, generated_key_chars choice, h.2⟩

theorem fallback_key_generation_witness :
    (false = false ∨ keysFromLines false "s" [] = ∅) ∧
    (authInit "s" 10 false false [] (fun _ => 3) 0).1.VALID_API_KEYS_SALTED
        = {generated_key (fun _ => 3)} ∧
    (generated_key (fun _ => 3)).length = 32 :=
  ⟨Or.inl rfl,
   (fallback_key_generation "s" 10 false false [] (fun _ => 3) 0 (Or.inl rfl)).1,
   (fallback_key_generation "s" 10 false false [] (fun _ => 3) 0 (Or.inl rfl)).2.1⟩

/-- C3: the trusted set is non-empty after construction, and
`verify_api_key` preserves non-emptiness — an empty load never
replaces a non-empty trusted set. -/
theorem trusted_set_nonempty (salt : String) (kr : Int) (as fe : Bool)
    (lines : List String) (choice : Nat → Fin 16) (now : Int)
    (st : AuthState) (lines2 : List String) (now2 : Int) (key : String)
    (hne : st.VALID_API_KEYS_SALTED.Nonempty) :
    ((authInit salt kr as fe lines choice now).1.VALID_API_KEYS_SALTED).Nonempty ∧
    ((verify_api_key st lines2 now2 key).2.VALID_API_KEYS_SALTED).Nonempty := by
  constructor
  · rw [authInit_eq]
    split <;> split
    all_goals first
      | exact Finset.singleton_nonempty _
      | exact absurd rfl (by assumption)
      | (next h => exact Finset.nonempty_iff_ne_empty.2 h)
  · rw [verify_state_eq]
    split
    · split
      · next h => exact Finset.nonempty_iff_ne_empty.2 h
      · exact hne
    · exact hne

theorem trusted_set_nonempty_witness :
    (({"x"} : Finset String).Nonempty) ∧
    ((authInit "s" 10 false false [] (fun _ => 0) 0).1.VALID_API_KEYS_SALTED).Nonempty ∧
    ((verify_api_key ⟨"s", 2, false, {"x"}, 0⟩ [] 100 "k").2.VALID_API_KEYS_SALTED).Nonempty :=
  ⟨⟨"x", by decide⟩,
   (trusted_set_nonempty "s" 10 false false [] (fun _ => 0) 0
     ⟨"s", 2, false, {"x"}, 0⟩ [] 100 "k" ⟨"x", by decide⟩).1,
   (trusted_set_nonempty "s" 10 false false [] (fun _ => 0) 0
     ⟨"s", 2, false, {"x"}, 0⟩ [] 100 "k" ⟨"x", by decide⟩).2⟩

/-- C1: `verify_api_key` computes the salted hash of the presented key;
when the refresh interval has elapsed or the hash is not currently
trusted it reloads the key source, replacing the trusted set only when
the loaded set is non-empty; and it returns membership of the hash in
the resulting trusted set. -/
theorem verify_api_key_spec (st : AuthState) (lines : List String) (now : Int) (key : String) :
    (¬(now - st.LAST_KEY_REFRESH > st.API_KEY_REFRESH_TIME
        ∨ hash_api_key st.API_KEY_SALT key ∉ st.VALID_API_KEYS_SALTED) →
      (verify_api_key st lines now key).2.VALID_API_KEYS_SALTED
        = st.VALID_API_KEYS_SALTED) ∧
    ((now - st.LAST_KEY_REFRESH > st.API_KEY_REFRESH_TIME
        ∨ hash_api_key st.API_KEY_SALT key ∉ st.VALID_API_KEYS_SALTED) →
      keysFromLines st.already_salted st.API_KEY_SALT lines ≠ ∅ →
      (verify_api_key st lines now key).2.VALID_API_KEYS_SALTED
        = keysFromLines st.already_salted st.API_KEY_SALT lines) ∧
    ((now - st.LAST_KEY_REFRESH > st.API_KEY_REFRESH_TIME
        ∨ hash_api_key st.API_KEY_SALT key ∉ st.VALID_API_KEYS_SALTED) →
      keysFromLines st.already_salted st.API_KEY_SALT lines = ∅ →
      (verify_api_key st lines now key).2.VALID_API_KEYS_SALTED
        = st.VALID_API_KEYS_SALTED) ∧
    ((verify_api_key st lines now key).1 = true ↔
      hash_api_key st.API_KEY_SALT key
        ∈ (verify_api_key st lines now key).2.VALID_API_KEYS_SALTED) := by
  refine ⟨?_, ?_, ?_, ?_⟩
  · intro h
    rw [verify_state_eq, if_neg h]
  · intro h hne
    rw [verify_state_eq, if_pos h, if_pos hne]
  · intro h hemp
    rw [verify_state_eq, if_pos h, if_neg (by simp [hemp])]
  · rw [verify_fst_eq]
    simp only [decide_eq_true_eq]

theorem verify_api_key_spec_witness :
    ((10 : Int) - 0 > 2 ∨
      hash_api_key "s" "k" ∉ ({"h1"} : Finset String)) ∧
    keysFromLines true "s" ["k1"] ≠ ∅ ∧
    (verify_api_key ⟨"s", 2, true, {"h1"}, 0⟩ ["k1"] 10 "k").2.VALID_API_KEYS_SALTED
      = keysFromLines true "s" ["k1"] :=
  ⟨Or.inl (by decide),
   Finset.ne_empty_of_mem (show "k1" ∈ keysFromLines true "s" ["k1"] by decide),
   (verify_api_key_spec ⟨"s", 2, true, {"h1"}, 0⟩ ["k1"] 10 "k").2.1
     (Or.inl (by decide))
     (Finset.ne_empty_of_mem (show "k1" ∈ keysFromLines true "s" ["k1"] by decide))⟩

/-- C2 (amended): when a refresh attempt's load yields an empty set the
previous trusted set remains in effect; the last-refresh timestamp,
however, is stamped at the start of every load attempt, so it is reset
to the present call's time even on a failed or empty load. -/
theorem empty_load_preserves_set (st : AuthState) (lines : List String) (now : Int)
    (key : String)
    (hrefresh : now - st.LAST_KEY_REFRESH > st.API_KEY_REFRESH_TIME
        ∨ hash_api_key st.API_KEY_SALT key ∉ st.VALID_API_KEYS_SALTED)
    (hempty : keysFromLines st.already_salted st.API_KEY_SALT lines = ∅) :
    (verify_api_key st lines now key).2.VALID_API_KEYS_SALTED
      = st.VALID_API_KEYS_SALTED ∧
    (verify_api_key st lines now key).2.LAST_KEY_REFRESH = now := by
  rw [verify_state_eq, if_pos hrefresh, if_neg (by simp [hempty])]
  exact ⟨rfl, rfl⟩

theorem empty_load_preserves_set_witness :
    ((100 : Int) - 0 > 2 ∨
      hash_api_key "s" "k" ∉ ({"x"} : Finset String)) ∧
    keysFromLines false "s" [] = ∅ ∧
    (verify_api_key ⟨"s", 2, false, {"x"}, 0⟩ [] 100 "k").2.VALID_API_KEYS_SALTED
      = {"x"} ∧
    (verify_api_key ⟨"s", 2, false, {"x"}, 0⟩ [] 100 "k").2.LAST_KEY_REFRESH = 100 :=
  ⟨Or.inl (by decide), rfl,
   (empty_load_preserves_set ⟨"s", 2, false, {"x"}, 0⟩ [] 100 "k"
     (Or.inl (by decide)) rfl).1,
   (empty_load_preserves_set ⟨"s", 2, false, {"x"}, 0⟩ [] 100 "k"
     (Or.inl (by decide)) rfl).2⟩

/-- Counterexample to C2 as stated: at this concrete state the refresh
attempt's load yields the empty set and the trusted set is retained,
yet the last-refresh timestamp changes from 0 to the call time 100 —
it is not "reset only when a non-empty loaded set replaces the current
trusted set". -/
theorem timestamp_reset_on_empty_load_cex :
    keysFromLines false "s" [] = ∅ ∧
    (verify_api_key ⟨"s", 2, false, {"x"}, 0⟩ [] 100 "k").2.VALID_API_KEYS_SALTED
      = {"x"} ∧
    ¬((verify_api_key ⟨"s", 2, false, {"x"}, 0⟩ [] 100 "k").2.LAST_KEY_REFRESH
      = (0 : Int)) := by
  decide

/-- C4: when construction fell back to the generated key (empty key
source) and the key source stays empty, `verify_api_key` rejects every
presented key — the 64-character SHA-256 hex digest it compares can
never equal the stored 32-character fallback key. -/
theorem fallback_state_rejects_all (salt : String) (kr : Int) (as fe : Bool)
    (lines : List String) (choice : Nat → Fin 16) (now : Int)
    (lines2 : List String) (now2 : Int) (key : String)
    (hempty : fe = false ∨ keysFromLines as salt lines = ∅)
    (hempty2 : keysFromLines as salt lines2 = ∅) :
    (hash_api_key salt key).length = 64 ∧
    (generated_key choice).length = 32 ∧
    (verify_api_key (authInit salt kr as fe lines choice now).1 lines2 now2 key).1
      = false := by
  refine ⟨hash_api_key_length salt key, generated_key_length choice, ?_⟩
  have hf := authInit_fields salt kr as fe lines choice now
  have hv := authInit_valid_empty salt kr as fe lines choice now hempty
  rw [verify_fst_eq, verify_state_eq, hf.1, hf.2.2.1, hempty2]
  split
  · rw [if_neg (by simp)]
    exact decide_eq_false (by
      simp only [hv.1, Finset.mem_singleton]
      exact hash_ne_generated salt key choice)
  · exact decide_eq_false (by
      simp only [hv.1, Finset.mem_singleton]
      exact hash_ne_generated salt key choice)

theorem fallback_state_rejects_all_witness :
    (false = false ∨ keysFromLines false "s" [] = ∅) ∧
    keysFromLines false "s" [] = ∅ ∧
    (verify_api_key (authInit "s" 10 false false [] (fun _ => 0) 0).1 [] 5
        (generated_key (fun _ => 0))).1 = false :=
  ⟨Or.inl rfl, rfl,
   (fallback_state_rejects_all "s" 10 false false [] (fun _ => 0) 0 [] 5
     (generated_key (fun _ => 0)) (Or.inl rfl) rfl).2.2⟩

/-! ### Cache-key determinism (C5) -/

theorem dumpsVal_jarr (xs : List JVal) :
    dumpsVal (.jarr xs) = "[" ++ String.intercalate ", " (xs.map dumpsVal) ++ "]" := by
  rw [dumpsVal, List.attach_map_val]

theorem dumpsVal_jobj (fs : List (String × JVal)) :
    dumpsVal (.jobj fs) =
      "\x7b" ++ String.intercalate ", "
        (((fs.mergeSort keyLe).map gEntry).map entryRender) ++ "\x7d" := by
  rw [dumpsVal]
  simp only [List.map_map]
  congr 3
  exact List.attach_map_val (fs.mergeSort keyLe) (entryRender ∘ gEntry)

theorem keyLe_trans (a b c : String × JVal) :
    keyLe a b = true → keyLe b c = true → keyLe a c = true := by
  intro h1 h2
  simp only [keyLe, decide_eq_true_eq] at h1 h2 ⊢
  exact le_trans h1 h2

theorem keyLe_total (a b : String × JVal) : (keyLe a b || keyLe b a) = true := by
  simp only [keyLe, Bool.or_eq_true, decide_eq_true_eq]
  exact le_total a.1 b.1

/-- The strictly-increasing-keys order used to identify the two sorted
entry lists. -/
theorem sorted_strict_of_nodup (l : List (String × JVal))
    (hl : (l.map Prod.fst).Nodup) :
    List.Pairwise (fun x y : String × String => x.1 < y.1)
      ((l.mergeSort keyLe).map gEntry) := by
  have hs := List.sorted_mergeSort keyLe_trans keyLe_total l
  have hnd : ((l.mergeSort keyLe).map Prod.fst).Nodup := by
    have hp : ((l.mergeSort keyLe).map Prod.fst).Perm (l.map Prod.fst) :=
      (List.mergeSort_perm l keyLe).map Prod.fst
    exact hp.nodup_iff.2 hl
  have hne : List.Pairwise (fun a b : String × JVal => a.1 ≠ b.1) (l.mergeSort keyLe) := by
    rw [List.Nodup, List.pairwise_map] at hnd
    exact hnd
  have hlt : List.Pairwise (fun a b : String × JVal => a.1 < b.1) (l.mergeSort keyLe) :=
    (hs.and hne).imp
      (fun h => lt_of_le_of_ne (by simpa [keyLe, decide_eq_true_eq] using h.1) h.2)
  rw [List.pairwise_map]
  exact hlt.imp (fun h => h)

/-- Two field lists whose serialized entries agree as multisets (and
whose keys repeat in neither) serialize identically after the sort. -/
theorem mapG_mergeSort_eq {l1 l2 : List (String × JVal)}
    (hperm : (l1.map gEntry).Perm (l2.map gEntry))
    (hnd : (l1.map Prod.fst).Nodup) :
    (l1.mergeSort keyLe).map gEntry = (l2.mergeSort keyLe).map gEntry := by
  have fstg : ∀ l : List (String × JVal), (l.map gEntry).map Prod.fst = l.map Prod.fst := by
    intro l
    rw [List.map_map]
    rfl
  have hnd2 : (l2.map Prod.fst).Nodup := by
    have hp : (l1.map Prod.fst).Perm (l2.map Prod.fst) := by
      have h := hperm.map Prod.fst
      rwa [fstg, fstg] at h
    exact hp.nodup_iff.1 hnd
  have hp : ((l1.mergeSort keyLe).map gEntry).Perm ((l2.mergeSort keyLe).map gEntry) :=
    (((List.mergeSort_perm l1 keyLe).map gEntry).trans hperm).trans
      ((List.mergeSort_perm l2 keyLe).map gEntry).symm
  haveI : IsAntisymm (String × String) (fun x y => x.1 < y.1) :=
    ⟨fun _ _ h1 h2 => absurd h2 (not_lt.2 (le_of_lt h1))⟩
  exact List.eq_of_perm_of_sorted hp (sorted_strict_of_nodup l1 hnd)
    (sorted_strict_of_nodup l2 hnd2)

mutual

/-- Equivalent payloads serialize identically (`json.dumps` with
`sort_keys=True` is order-insensitive). -/
theorem dumps_eq_of_jequiv {p q : JVal} (h : JEquiv p q) : dumpsVal p = dumpsVal q := by
  cases h with
  | jnull => rfl
  | jbool b => rfl
  | jnum n => rfl
  | jstr s => rfl
  | jarr hl => rw [dumpsVal_jarr, dumpsVal_jarr, dumps_list_eq hl]
  | jobj hperm hfields hnd =>
      rw [dumpsVal_jobj, dumpsVal_jobj]
      have hg := hperm.map gEntry
      rw [gEntry_fields_eq hfields] at hg
      rw [mapG_mergeSort_eq hg hnd]

theorem dumps_list_eq {xs ys : List JVal} (h : JEquivList xs ys) :
    xs.map dumpsVal = ys.map dumpsVal := by
  cases h with
  | nil => rfl
  | cons hxy htail =>
      simp only [List.map_cons]
      rw [dumps_eq_of_jequiv hxy, dumps_list_eq htail]

theorem gEntry_fields_eq {fs gs : List (String × JVal)} (h : JEquivFields fs gs) :
    fs.map gEntry = gs.map gEntry := by
  cases h with
  | nil => rfl
  | cons hk hv htail =>
      simp only [List.map_cons]
      rw [gEntry_fields_eq htail]
      congr 1
      rw [gEntry, gEntry, hk, dumps_eq_of_jequiv hv]

end

/-- C5: `get_cache_key` is a pure function; payloads that are
field-wise equal regardless of field order (recursively) receive the
same key; the key is the `ollama_cache:` namespace tag followed by the
128-bit MD5 digest (32 hex characters) of the sorted-key
serialization. -/
theorem cache_key_deterministic :
    (∀ p1 p2 : JVal, JEquiv p1 p2 → get_cache_key p1 = get_cache_key p2) ∧
    (∀ p : JVal, get_cache_key p = "ollama_cache:" ++ md5_hexdigest (dumpsVal p)) ∧
    (∀ p : JVal, (md5_hexdigest (dumpsVal p)).length = 32) :=
  ⟨fun _ _ h => by rw [get_cache_key, get_cache_key, dumps_eq_of_jequiv h],
   fun _ => rfl,
   fun _ => md5_hexdigest_length _⟩

theorem cache_key_deterministic_witness :
    JEquiv (JVal.jobj [("model", .jstr "llama2"), ("prompt", .jstr "Hello")])
           (JVal.jobj [("prompt", .jstr "Hello"), ("model", .jstr "llama2")]) ∧
    get_cache_key (JVal.jobj [("model", .jstr "llama2"), ("prompt", .jstr "Hello")])
      = get_cache_key (JVal.jobj [("prompt", .jstr "Hello"), ("model", .jstr "llama2")]) := by
  have hd : JEquiv (JVal.jobj [("model", .jstr "llama2"), ("prompt", .jstr "Hello")])
      (JVal.jobj [("prompt", .jstr "Hello"), ("model", .jstr "llama2")]) :=
    JEquiv.jobj
      (List.Perm.swap ("prompt", JVal.jstr "Hello") ("model", JVal.jstr "llama2") [])
      (JEquivFields.cons rfl (JEquiv.jstr "Hello")
        (JEquivFields.cons rfl (JEquiv.jstr "llama2") JEquivFields.nil))
      (by decide)
  exact ⟨hd, cache_key_deterministic.1 _ _ hd⟩

/-! ### Reduction lemmas for `call_model` -/

/-- An authenticated request that hits the cache returns the cached
value, touching neither the upstream nor the cache-write path. -/
theorem call_model_hit (st : AuthState) (lines : List String) (now ttl : Int)
    (env : CallEnv) (req : JVal) (k : String) (v : JVal)
    (hk : k ≠ "")
    (hv : (verify_api_key st lines now k).1 = true)
    (hconn : env.connected = true)
    (hhit : env.cacheGet (get_cache_key req) = .found v) :
    call_model st lines now ttl env req (some k) =
      ⟨.success v, (verify_api_key st lines now k).2, false, true, []⟩ := by
  simp [call_model, hk, hv, hconn, hhit]

/-- An authenticated request that gets nothing usable from the cache —
backend not connected, a miss, or a `get` error — forwards upstream
and answers from the upstream outcome. -/
theorem call_model_miss (st : AuthState) (lines : List String) (now ttl : Int)
    (env : CallEnv) (req : JVal) (k : String)
    (hk : k ≠ "")
    (hv : (verify_api_key st lines now k).1 = true)
    (hmiss : env.connected = false ∨ env.cacheGet (get_cache_key req) = .nofind
      ∨ ∃ e, env.cacheGet (get_cache_key req) = .err e) :
    call_model st lines now ttl env req (some k) =
      ⟨respOfUpstream env.upstream, (verify_api_key st lines now k).2, true,
       env.connected, missWrites env req ttl⟩ := by
  rcases hmiss with h | h | ⟨e, h⟩ <;>
    cases hup : env.upstream <;>
      simp [call_model, hk, hv, h, hup, respOfUpstream, missWrites]

/-- C6: an authenticated request whose derived cache key has a stored
(unexpired, hence served) entry returns the cached body and never
invokes the upstream endpoint; consequently, a second request with the
same payload whose lookup is served the body stored by the first
returns the identical body as the first upstream response with no
second upstream call. -/
theorem cache_hit_short_circuits :
    (∀ (st : AuthState) (lines : List String) (now ttl : Int) (env : CallEnv)
        (req v : JVal) (k : String),
      k ≠ "" →
      (verify_api_key st lines now k).1 = true →
      env.connected = true →
      env.cacheGet (get_cache_key req) = .found v →
      (call_model st lines now ttl env req (some k)).resp = .success v ∧
      (call_model st lines now ttl env req (some k)).upstreamCalled = false ∧
      (call_model st lines now ttl env req (some k)).cacheWrites = []) ∧
    (∀ (st : AuthState) (lines : List String) (now1 now2 ttl : Int)
        (env1 env2 : CallEnv) (req b : JVal) (k1 k2 : String),
      k1 ≠ "" → k2 ≠ "" →
      (verify_api_key st lines now1 k1).1 = true →
      env1.connected = true →
      env1.cacheGet (get_cache_key req) = .nofind →
      env1.upstream = .ok b →
      env1.putFails = false →
      (verify_api_key (call_model st lines now1 ttl env1 req (some k1)).st
        lines now2 k2).1 = true →
      env2.connected = true →
      env2.cacheGet (get_cache_key req) = .found b →
      (call_model st lines now1 ttl env1 req (some k1)).resp = .success b ∧
      (call_model st lines now1 ttl env1 req (some k1)).cacheWrites
        = [(get_cache_key req, ttl, b)] ∧
      (call_model (call_model st lines now1 ttl env1 req (some k1)).st
          lines now2 ttl env2 req (some k2)).resp = .success b ∧
      (call_model (call_model st lines now1 ttl env1 req (some k1)).st
          lines now2 ttl env2 req (some k2)).upstreamCalled = false) := by
  constructor
  · intro st lines now ttl env req v k hk hv hconn hhit
    rw [call_model_hit st lines now ttl env req k v hk hv hconn hhit]
    exact ⟨rfl, rfl, rfl⟩
  · intro st lines now1 now2 ttl env1 env2 req b k1 k2 hk1 hk2 hv1 hconn1 hmiss1
      hup1 hput1 hv2 hconn2 hhit2
    have h1 := call_model_miss st lines now1 ttl env1 req k1 hk1 hv1
      (Or.inr (Or.inl hmiss1))
    have h2 := call_model_hit (call_model st lines now1 ttl env1 req (some k1)).st
      lines now2 ttl env2 req k2 b hk2 hv2 hconn2 hhit2
    refine ⟨?_, ?_, ?_, ?_⟩
    · rw [h1, hup1]
      rfl
    · rw [h1]
      simp [missWrites, hup1, hconn1, hput1]
    · rw [h2]
    · rw [h2]

/-- C7: cache backend faults are fully absorbed: a disconnected backend
or an erroring `get` behaves exactly as a cache miss (the upstream is
invoked and determines the response), a failing `put` performs no
write, and with a working upstream the response is a success body no
matter what the cache does — a cache fault never produces a non-200
status. -/
theorem cache_faults_absorbed (st : AuthState) (lines : List String) (now ttl : Int)
    (env : CallEnv) (req : JVal) (k : String)
    (hk : k ≠ "")
    (hv : (verify_api_key st lines now k).1 = true) :
    ((env.connected = false ∨ (∃ e, env.cacheGet (get_cache_key req) = .err e)) →
      (call_model st lines now ttl env req (some k)).resp = respOfUpstream env.upstream ∧
      (call_model st lines now ttl env req (some k)).upstreamCalled = true) ∧
    (env.putFails = true →
      (call_model st lines now ttl env req (some k)).cacheWrites = []) ∧
    (∀ b : JVal, env.upstream = .ok b →
      ∃ w : JVal, (call_model st lines now ttl env req (some k)).resp = .success w) := by
  refine ⟨?_, ?_, ?_⟩
  · intro hfault
    have h : call_model st lines now ttl env req (some k) =
        ⟨respOfUpstream env.upstream, (verify_api_key st lines now k).2, true,
         env.connected, missWrites env req ttl⟩ := by
      rcases hfault with h | ⟨e, h⟩
      · exact call_model_miss st lines now ttl env req k hk hv (Or.inl h)
      · exact call_model_miss st lines now ttl env req k hk hv (Or.inr (Or.inr ⟨e, h⟩))
    rw [h]
    exact ⟨rfl, rfl⟩
  · intro hput
    by_cases hc : env.connected = true
    · cases hget : env.cacheGet (get_cache_key req) with
      | found v =>
          rw [call_model_hit st lines now ttl env req k v hk hv hc hget]
      | nofind =>
          rw [call_model_miss st lines now ttl env req k hk hv (Or.inr (Or.inl hget))]
          show missWrites env req ttl = []
          unfold missWrites
          split <;> simp [hput]
      | err e =>
          rw [call_model_miss st lines now ttl env req k hk hv
            (Or.inr (Or.inr ⟨e, hget⟩))]
          show missWrites env req ttl = []
          unfold missWrites
          split <;> simp [hput]
    · rw [call_model_miss st lines now ttl env req k hk hv
        (Or.inl (by simpa using hc))]
      show missWrites env req ttl = []
      unfold missWrites
      split <;> simp [hc]
  · intro b hup
    by_cases hc : env.connected = true
    · cases hget : env.cacheGet (get_cache_key req) with
      | found v =>
          exact ⟨v, by rw [call_model_hit st lines now ttl env req k v hk hv hc hget]⟩
      | nofind =>
          refine ⟨b, ?_⟩
          rw [call_model_miss st lines now ttl env req k hk hv (Or.inr (Or.inl hget)),
            hup]
          rfl
      | err e =>
          refine ⟨b, ?_⟩
          rw [call_model_miss st lines now ttl env req k hk hv
            (Or.inr (Or.inr ⟨e, hget⟩)), hup]
          rfl
    · refine ⟨b, ?_⟩
      rw [call_model_miss st lines now ttl env req k hk hv (Or.inl (by simpa using hc)),
        hup]
      rfl

/-- C8 (amended): an absent — or present but empty — `apikey` header
terminates the request with 401 and the body "Missing APIKEY header"
before any cache or upstream interaction; a present, non-empty key
that fails verification terminates it with 403 before any cache or
upstream interaction. -/
theorem auth_gate (st : AuthState) (lines : List String) (now ttl : Int)
    (env : CallEnv) (req : JVal) (apikey : Option String) :
    ((apikey = none ∨ apikey = some "") →
      (call_model st lines now ttl env req apikey).resp
        = .httpError 401 "Missing APIKEY header" ∧
      (call_model st lines now ttl env req apikey).cacheQueried = false ∧
      (call_model st lines now ttl env req apikey).upstreamCalled = false ∧
      (call_model st lines now ttl env req apikey).cacheWrites = [] ∧
      (call_model st lines now ttl env req apikey).st = st) ∧
    (∀ k : String, apikey = some k → k ≠ "" →
      (verify_api_key st lines now k).1 = false →
      (call_model st lines now ttl env req apikey).resp
        = .httpError 403 "Invalid API key" ∧
      (call_model st lines now ttl env req apikey).cacheQueried = false ∧
      (call_model st lines now ttl env req apikey).upstreamCalled = false ∧
      (call_model st lines now ttl env req apikey).cacheWrites = []) := by
  constructor
  · intro h
    rw [show call_model st lines now ttl env req apikey =
        ⟨.httpError 401 "Missing APIKEY header", st, false, false, []⟩ from by
      simp [call_model, h]]
    exact ⟨rfl, rfl, rfl, rfl, rfl⟩
  · intro k hsome hk hv
    subst hsome
    rw [show call_model st lines now ttl env req (some k) =
        ⟨.httpError 403 "Invalid API key", (verify_api_key st lines now k).2,
         false, false, []⟩ from by
      simp [call_model, hk, hv]]
    exact ⟨rfl, rfl, rfl, rfl⟩

/-- Counterexample to C8 as stated: a present but empty `apikey` header
(`apikey: ""`) fails verification, yet the handler returns 401, not the
403 the claim requires for every present header failing verification
(Python's `if not apikey` treats the empty header value as absent). -/
theorem auth_gate_cex :
    (some "" ≠ (none : Option String)) ∧
    (verify_api_key ⟨"s", 2, false, ∅, 0⟩ [] 0 "").1 = false ∧
    (call_model ⟨"s", 2, false, ∅, 0⟩ [] 0 3600
        ⟨false, fun _ => .nofind, false, .otherExc "down"⟩ .jnull (some "")).resp
      = .httpError 401 "Missing APIKEY header" := by
  refine ⟨by simp, by decide, rfl⟩

theorem cache_hit_short_circuits_witness :
    ("k" ≠ "") ∧
    (verify_api_key ⟨"s", 2, false, {hash_api_key "s" "k"}, 0⟩ [] 0 "k").1 = true ∧
    (call_model ⟨"s", 2, false, {hash_api_key "s" "k"}, 0⟩ [] 0 3600
        ⟨true, fun _ => .found (.jstr "hi"), false, .ok .jnull⟩ .jnull (some "k")).resp
      = .success (.jstr "hi") ∧
    (call_model ⟨"s", 2, false, {hash_api_key "s" "k"}, 0⟩ [] 0 3600
        ⟨true, fun _ => .found (.jstr "hi"), false, .ok .jnull⟩ .jnull (some "k")).upstreamCalled
      = false :=
  ⟨by decide, by decide,
   (cache_hit_short_circuits.1 ⟨"s", 2, false, {hash_api_key "s" "k"}, 0⟩ [] 0 3600
     ⟨true, fun _ => .found (.jstr "hi"), false, .ok .jnull⟩ .jnull (.jstr "hi") "k"
     (by decide) (by decide) rfl rfl).1,
   (cache_hit_short_circuits.1 ⟨"s", 2, false, {hash_api_key "s" "k"}, 0⟩ [] 0 3600
     ⟨true, fun _ => .found (.jstr "hi"), false, .ok .jnull⟩ .jnull (.jstr "hi") "k"
     (by decide) (by decide) rfl rfl).2.1⟩

theorem cache_faults_absorbed_witness :
    ("k" ≠ "") ∧
    (verify_api_key ⟨"s", 2, false, {hash_api_key "s" "k"}, 0⟩ [] 0 "k").1 = true ∧
    (call_model ⟨"s", 2, false, {hash_api_key "s" "k"}, 0⟩ [] 0 3600
        ⟨false, fun _ => .nofind, true, .ok .jnull⟩ .jnull (some "k")).resp
      = respOfUpstream (.ok .jnull) ∧
    (call_model ⟨"s", 2, false, {hash_api_key "s" "k"}, 0⟩ [] 0 3600
        ⟨false, fun _ => .nofind, true, .ok .jnull⟩ .jnull (some "k")).cacheWrites = [] ∧
    (∃ w : JVal,
      (call_model ⟨"s", 2, false, {hash_api_key "s" "k"}, 0⟩ [] 0 3600
        ⟨false, fun _ => .nofind, true, .ok .jnull⟩ .jnull (some "k")).resp
          = .success w) :=
  ⟨by decide, by decide,
   ((cache_faults_absorbed ⟨"s", 2, false, {hash_api_key "s" "k"}, 0⟩ [] 0 3600
     ⟨false, fun _ => .nofind, true, .ok .jnull⟩ .jnull "k"
     (by decide) (by decide)).1 (Or.inl rfl)).1,
   (cache_faults_absorbed ⟨"s", 2, false, {hash_api_key "s" "k"}, 0⟩ [] 0 3600
     ⟨false, fun _ => .nofind, true, .ok .jnull⟩ .jnull "k"
     (by decide) (by decide)).2.1 rfl,
   (cache_faults_absorbed ⟨"s", 2, false, {hash_api_key "s" "k"}, 0⟩ [] 0 3600
     ⟨false, fun _ => .nofind, true, .ok .jnull⟩ .jnull "k"
     (by decide) (by decide)).2.2 .jnull rfl⟩

theorem auth_gate_witness :
    ((none : Option String) = none ∨ (none : Option String) = some "") ∧
    (call_model ⟨"s", 2, false, ∅, 0⟩ [] 0 3600
        ⟨false, fun _ => .nofind, false, .otherExc "x"⟩ .jnull none).resp
      = .httpError 401 "Missing APIKEY header" ∧
    ("wrong" ≠ "") ∧
    (verify_api_key ⟨"s", 2, false, ∅, 0⟩ [] 0 "wrong").1 = false ∧
    (call_model ⟨"s", 2, false, ∅, 0⟩ [] 0 3600
        ⟨false, fun _ => .nofind, false, .otherExc "x"⟩ .jnull (some "wrong")).resp
      = .httpError 403 "Invalid API key" :=
  ⟨Or.inl rfl,
   ((auth_gate ⟨"s", 2, false, ∅, 0⟩ [] 0 3600
     ⟨false, fun _ => .nofind, false, .otherExc "x"⟩ .jnull none).1 (Or.inl rfl)).1,
   by decide, by decide,
   ((auth_gate ⟨"s", 2, false, ∅, 0⟩ [] 0 3600
     ⟨false, fun _ => .nofind, false, .otherExc "x"⟩ .jnull (some "wrong")).2
     "wrong" rfl (by decide) (by decide)).1⟩

end OllProx
